import Mathlib

/-!
Shallow embedding of `custom_components/polestar_api/pypolestar/polestar.py`
(class `PolestarApi`), for checking the repository's specification.

Python dynamic values are modelled by the inductive `Json` (Python `None` is
`Json.null`); Python `dict`s are association lists preserving insertion order;
`datetime` instants and `timedelta`s are integers (seconds); external
collaborators (auth, GraphQL transport) are modelled by oracles describing the
outcome of each suspension point of a call.
-/

set_option autoImplicit false

namespace Polestar

/-- A Python value as it occurs in decoded GraphQL responses and the cache:
`null` is Python `None`. -/
inductive Json where
  | null
  | bool (b : Bool)
  | num (n : Int)
  | str (s : String)
  | arr (elems : List Json)
  | obj (fields : List (String × Json))

/-- Python `data is None`. -/
def Json.isNull : Json → Bool
  | .null => true
  | _ => false

/-- Python `sep in s` for a one-character separator. -/
def pyContains (s : String) (sep : Char) : Bool :=
  s.data.contains sep

/-- Splitting a character list at every occurrence of `sep`
(kernel-reducible counterpart of splitting at a one-character separator). -/
def splitCharList (sep : Char) : List Char → List (List Char)
  | [] => [[]]
  | c :: rest =>
      match splitCharList sep rest with
      | [] => if c = sep then [[], []] else [[c]]
      | w :: ws => if c = sep then [] :: w :: ws else (c :: w) :: ws

/-- Python `s.split(sep)` for a one-character separator: `"a/b" ↦ ["a","b"]`,
`"a/" ↦ ["a",""]`, `"" ↦ [""]`. -/
def pySplit (s : String) (sep : Char) : List String :=
  (splitCharList sep s.data).map String.mk

/-- First-match lookup in an association list (Python `dict` keys are unique,
so first match is the match). -/
def lookupKey {α : Type} (kvs : List (String × α)) (k : String) : Option α :=
  match kvs with
  | [] => none
  | (k', v) :: rest => if k' = k then some v else lookupKey rest k

/-- Python `d[k] = v`: replace in place if the key exists, else append
(insertion order preserved). -/
def dictInsert {α : Type} (kvs : List (String × α)) (k : String) (v : α) :
    List (String × α) :=
  match kvs with
  | [] => [(k, v)]
  | (k', v') :: rest =>
      if k' = k then (k, v) :: rest else (k', v') :: dictInsert rest k v

/-- `result[key]` on a decoded GraphQL response object. -/
def jsonGet (j : Json) (key : String) : Option Json :=
  match j with
  | .obj kvs => lookupKey kvs key
  | _ => none

/-- `PolestarApi._get_field_name_value(field_name, data)`: a plain key, or a
`/`-delimited chain of keys applied successively; any miss or non-dict value
yields Python `None` (`Json.null`). -/
def get_field_name_value (field_name : String) (data : Json) : Json :=
  if data.isNull then Json.null
  else if pyContains field_name '/' then
    chainLookup (pySplit field_name '/') data
  else
    match data with
    | .obj kvs =>
        match lookupKey kvs field_name with
        | some v => v
        | none => Json.null
    | _ => Json.null
where
  /-- The `for key in field_names` loop: descend through nested dicts,
  short-circuiting to `None` when a key is absent or the value is not a dict. -/
  chainLookup : List String → Json → Json
  | [], d => d
  | k :: ks, d =>
      match d with
      | .obj kvs =>
          match lookupKey kvs k with
          | some v => chainLookup ks v
          | none => Json.null
      | _ => Json.null

/-! ## Constants (`pypolestar/const.py`)

`const.py` is not part of the sources at hand; the constants are modelled from
the spec: the two API base endpoints, the names of the three query kinds (the
GraphQL operation names used as response keys), and the cache TTL.  Modelled
from the spec: TTL default 5 minutes; cool-down window 5 seconds (the latter is
hard-coded in `polestar.py` itself). -/

/-- The two API base endpoints (`BASE_URL` / `BASE_URL_V2`); inventory uses the
primary endpoint, telemetry the v2 endpoint.  Modelled as an enumeration since
only their identity matters (`_set_latest_call_code` compares against
`BASE_URL`). -/
inductive Url where
  | base
  | baseV2
  deriving DecidableEq

/-- `CAR_INFO_DATA`: response key of the inventory query. -/
def CAR_INFO_DATA : String := "getConsumerCarsV2"

/-- `ODO_METER_DATA`: response key of the odometer query. -/
def ODO_METER_DATA : String := "getOdometerData"

/-- `BATTERY_DATA`: response key of the battery query. -/
def BATTERY_DATA : String := "getBatteryData"

/-- Modelled from the spec: `CACHE_TIME`, the TTL default of 5 minutes, in
seconds (`const.py` is not among the sources at hand). -/
def CACHE_TIME : Int := 300

/-! ## Client state -/

/-- One cache entry: the Python dict `{"data": ..., "timestamp": ...}`
stored in `cache_data_by_vin[vin][query]`. -/
structure CacheEntry where
  data : Json
  timestamp : Int

/-- The mutable state of a `PolestarApi` object.  `updating` is the
non-blocking `threading.Lock` (`true` = held); instants are integers in
seconds.  `cache_data_by_vin` is a `defaultdict(dict)`: reading a missing VIN
key inserts an empty inner dict (see `ddGet`). -/
structure ApiState where
  updating : Bool
  latest_call_code : Option Int
  latest_call_code_2 : Option Int
  next_update : Option Int
  car_data_by_vin : List (String × Json)
  cache_data_by_vin : List (String × List (String × CacheEntry))
  cache_ttl : Int
  next_update_delay : Int
  configured_vins : Option (List String)

/-- `defaultdict.__getitem__`: return the inner dict for `vin`, inserting an
empty one (at the end, Python insertion order) if the key is missing.  Returns
the inner dict together with the possibly-extended table. -/
def ddGet (table : List (String × List (String × CacheEntry))) (vin : String) :
    List (String × CacheEntry) × List (String × List (String × CacheEntry)) :=
  match lookupKey table vin with
  | some inner => (inner, table)
  | none => ([], table ++ [(vin, [])])

/-- Pure view of the cache: the entry stored for `(vin, query)`, if any.  Used
only in theorem statements, never by the embedded operations. -/
def cacheLookup (s : ApiState) (vin query : String) : Option CacheEntry :=
  match lookupKey s.cache_data_by_vin vin with
  | some inner => lookupKey inner query
  | none => none

/-- Python exceptions crossing the boundaries modelled here.
`keyError` is a raw `KeyError`; `otherExc` is any exception outside the
module's four `Polestar*Exception` kinds (e.g. a transport error that is not a
`TransportQueryError`, re-raised unclassified by `_query_graph_ql`). -/
inductive PolErr where
  | authFailure
  | notAuthorized
  | apiFailure
  | noData
  | keyError
  | otherExc
  deriving DecidableEq

/-! ## Readers: `get_latest_data` and `get_cache_data` -/

/-- `PolestarApi.get_latest_data(vin, query, field_name)`.

Follows the source line by line: the guard is
`if self.cache_data_by_vin and self.cache_data_by_vin[vin][query]:`.
The first conjunct is dict truthiness (table non-empty); the subscript
`[vin]` is a `defaultdict` access (inserts an empty inner dict for an unseen
VIN), and `[query]` on the plain inner dict raises `KeyError` when absent.
An entry dict `{"data": ..., "timestamp": ...}` is always truthy.
`data is None ↦ False` (known-empty); otherwise the field path is resolved. -/
def get_latest_data (s : ApiState) (vin query field_name : String) :
    Except PolErr Json × ApiState :=
  if s.cache_data_by_vin.isEmpty then
    (.ok Json.null, s)
  else
    let (inner, table') := ddGet s.cache_data_by_vin vin
    let s' := { s with cache_data_by_vin := table' }
    match lookupKey inner query with
    | none => (.error .keyError, s')
    | some entry =>
        if entry.data.isNull then (.ok (Json.bool false), s')
        else (.ok (get_field_name_value field_name entry.data), s')

/-- `PolestarApi.get_cache_data(vin, query, field_name, skip_cache)`.

Guard: `if self.cache_data_by_vin and self.cache_data_by_vin[vin].get(query):`
— `.get` never raises, but the `defaultdict` access `[vin]` still inserts an
empty inner dict for an unseen VIN.  The entry is returned only when its data
is not `None` and (`skip_cache` or `timestamp + cache_ttl > now`); in every
other case the function returns Python `None`. -/
def get_cache_data (s : ApiState) (now : Int) (vin query field_name : String)
    (skip_cache : Bool) : Json × ApiState :=
  if s.cache_data_by_vin.isEmpty then
    (Json.null, s)
  else
    let (inner, table') := ddGet s.cache_data_by_vin vin
    let s' := { s with cache_data_by_vin := table' }
    match lookupKey inner query with
    | none => (Json.null, s')
    | some entry =>
        if ¬ entry.data.isNull ∧
            (skip_cache ∨ entry.timestamp + s.cache_ttl > now) then
          (get_field_name_value field_name entry.data, s')
        else
          (Json.null, s')

/-! ## GraphQL transport and `_query_graph_ql` -/

/-- One entry of `TransportQueryError.errors`, as the code reads it:
`exc.errors[0]["extensions"]["code"]` and `exc.errors[0]["message"]`. -/
structure GqlError where
  code : String
  message : String

/-- Outcome of one call of the transport collaborator
(`client.execute(...)`): a decoded JSON result, a `TransportQueryError`
carrying a list of GraphQL errors, or any other exception (e.g. a transport
error for a non-2xx HTTP status, which `gql` does not report as a
`TransportQueryError`). -/
inductive TransportOutcome where
  | success (result : Json)
  | queryError (errors : List GqlError)
  | otherError

/-- What `_query_graph_ql` does after the `try`: return the result, raise
`PolestarNotAuthorizedException(msg)`, raise `PolestarApiException` (which the
code raises bare, carrying no server message), or re-raise an unclassified
exception. -/
inductive QueryResult where
  | ok (result : Json)
  | notAuthorized (msg : String)
  | apiError
  | otherExc

/-- `PolestarApi._set_latest_call_code(url, code)`: `url == BASE_URL` selects
`latest_call_code`, anything else `latest_call_code_2`. -/
def set_latest_call_code (s : ApiState) (url : Url) (code : Int) : ApiState :=
  match url with
  | .base => { s with latest_call_code := some code }
  | .baseV2 => { s with latest_call_code_2 := some code }

/-- `PolestarApi._query_graph_ql`, given the transport outcome:
a `TransportQueryError` whose first error has `extensions.code ==
"UNAUTHENTICATED"` records 401 for the endpoint and raises
`PolestarNotAuthorizedException` with that error's message; any other
`TransportQueryError` (including an empty error list) records 500 and raises a
bare `PolestarApiException`; any other exception is re-raised with no status
recorded; success records 200. -/
def query_graph_ql (s : ApiState) (url : Url) (t : TransportOutcome) :
    QueryResult × ApiState :=
  match t with
  | .success r => (.ok r, set_latest_call_code s url 200)
  | .queryError errors =>
      match errors with
      | e :: _ =>
          if e.code = "UNAUTHENTICATED" then
            (.notAuthorized e.message, set_latest_call_code s url 401)
          else
            (.apiError, set_latest_call_code s url 500)
      | [] => (.apiError, set_latest_call_code s url 500)
  | .otherError => (.otherExc, s)

/-! ## Refresh cycle: `get_ev_data` -/

/-- External calls a refresh cycle can make: a token refresh
(`auth.get_token`, with its `refresh` flag) and the two telemetry fetches.
Collected so that theorems can speak about "zero network calls" and "exactly
one token refresh". -/
inductive Action where
  | tokenRefresh (force : Bool)
  | fetchOdometer
  | fetchBattery
  deriving DecidableEq

/-- Everything the collaborators and the clock do during one call of
`get_ev_data`, one field per suspension point / `datetime.now()` read, in
program order. `*_ok = false` means the corresponding `auth.get_token` call
raises `PolestarAuthException`. -/
structure RefreshEnv where
  now_throttle : Int
  token_expiry : Option Int
  now_expiry : Int
  refresh_ok : Bool
  odometer : TransportOutcome
  now_odo : Int
  odo_token_ok : Bool
  battery : TransportOutcome
  now_bat : Int
  bat_token_ok : Bool
  now_end : Int

/-- `self.next_update is not None and self.next_update > datetime.now()`. -/
def throttleActive (s : ApiState) (now : Int) : Bool :=
  match s.next_update with
  | some nu => decide (now < nu)
  | none => false

/-- The token-expiry phase of `get_ev_data` (the first `try` block): `None`
expiry raises `PolestarAuthException`; an expiry closer than 300 seconds
forces `auth.get_token(refresh=True)`.  A `PolestarAuthException` is caught:
`latest_call_code` for `BASE_URL` is set to 500 and the cycle aborts
(`false` = do not proceed to the sub-fetches). -/
def auth_check (s : ApiState) (env : RefreshEnv) : Bool × ApiState × List Action :=
  match env.token_expiry with
  | none => (false, set_latest_call_code s .base 500, [])
  | some expiry =>
      if expiry - env.now_expiry < 300 then
        if env.refresh_ok then (true, s, [Action.tokenRefresh true])
        else (false, set_latest_call_code s .base 500, [Action.tokenRefresh true])
      else (true, s, [])

/-- `self.cache_data_by_vin[vin][query] = {"data": v, "timestamp": ts}`:
a `defaultdict` access followed by an in-place store on the inner dict. -/
def write_cache (s : ApiState) (vin query : String) (v : Json) (ts : Int) :
    ApiState :=
  let (inner, table') := ddGet s.cache_data_by_vin vin
  { s with cache_data_by_vin :=
      dictInsert table' vin (dictInsert inner query ⟨v, ts⟩) }

/-- Body shared by `_get_odometer_data(vin)` and `_get_battery_data(vin)`
(they differ only in the GraphQL document and the response key): issue the
query against `BASE_URL_V2` and, on success, store `result[key]` into the
cache under `(vin, key)` with the current timestamp.  A missing `key` in a
successful result is a Python `KeyError`. -/
def sub_fetch (s : ApiState) (vin key : String) (t : TransportOutcome)
    (now : Int) : Except PolErr Unit × ApiState :=
  match query_graph_ql s .baseV2 t with
  | (.ok r, s') =>
      match jsonGet r key with
      | some v => (.ok (), write_cache s' vin key v now)
      | none => (.error .keyError, s')
  | (.notAuthorized _, s') => (.error .notAuthorized, s')
  | (.apiError, s') => (.error .apiFailure, s')
  | (.otherExc, s') => (.error .otherExc, s')

/-- The local `call_api(func)` of `get_ev_data`:
`PolestarNotAuthorizedException` is handled by one `auth.get_token()` call
(whose own `PolestarAuthException`, if any, escapes uncaught);
`PolestarApiException` is logged, `latest_call_code_2` set to 500, and
swallowed; any other exception escapes. -/
def call_api (s : ApiState) (vin key : String) (act : Action)
    (t : TransportOutcome) (now : Int) (token_ok : Bool) :
    Except PolErr Unit × ApiState × List Action :=
  match sub_fetch s vin key t now with
  | (.ok _, s') => (.ok (), s', [act])
  | (.error .notAuthorized, s') =>
      if token_ok then (.ok (), s', [act, Action.tokenRefresh false])
      else (.error .authFailure, s', [act, Action.tokenRefresh false])
  | (.error .apiFailure, s') =>
      (.ok (), set_latest_call_code s' .baseV2 500, [act])
  | (.error e, s') => (.error e, s', [act])

/-- `PolestarApi.get_ev_data(vin)` — one refresh cycle.  Returns the Python
outcome (`.ok` = returned normally, `.error` = the exception that escaped to
the caller), the post-state, and the list of external calls made.

Source order: non-blocking lock acquire (fail ⇒ return); throttle check
(`next_update` in the future ⇒ release and return); token-expiry phase
(auth failure ⇒ code 500, release, return); `call_api` for odometer then
battery; `next_update = now + next_update_delay`; the lock is released in a
`finally`, so it is released even when an exception escapes. -/
def get_ev_data (s0 : ApiState) (env : RefreshEnv) (vin : String) :
    Except PolErr Unit × ApiState × List Action :=
  if s0.updating then
    (.ok (), s0, [])
  else
    let s1 := { s0 with updating := true }
    if throttleActive s1 env.now_throttle then
      (.ok (), { s1 with updating := false }, [])
    else
      match auth_check s1 env with
      | (false, s2, acts) => (.ok (), { s2 with updating := false }, acts)
      | (true, s2, acts) =>
          match call_api s2 vin ODO_METER_DATA Action.fetchOdometer
              env.odometer env.now_odo env.odo_token_ok with
          | (.error e, s3, acts3) =>
              (.error e, { s3 with updating := false }, acts ++ acts3)
          | (.ok _, s3, acts3) =>
              match call_api s3 vin BATTERY_DATA Action.fetchBattery
                  env.battery env.now_bat env.bat_token_ok with
              | (.error e, s4, acts4) =>
                  (.error e, { s4 with updating := false },
                   acts ++ acts3 ++ acts4)
              | (.ok _, s4, acts4) =>
                  (.ok (),
                   { s4 with
                      next_update := some (env.now_end + s4.next_update_delay),
                      updating := false },
                   acts ++ acts3 ++ acts4)

/-! ## Initialization: `async_init` -/

/-- Collaborator behaviour during one call of `async_init`:
`auth.async_init()` and `auth.get_token()` (each may raise
`PolestarAuthException`), the resulting `auth.access_token`, and the
transport outcome of the inventory query. -/
structure InitEnv where
  auth_init_ok : Bool
  get_token_ok : Bool
  access_token : Option String
  inventory : TransportOutcome
  now : Int

/-- `PolestarApi._get_vehicle_data()`: inventory query against `BASE_URL`;
`result[CAR_INFO_DATA]` equal to `None` or of length zero raises
`PolestarNoDataException`; otherwise the vehicle list is returned.  A missing
key is a `KeyError`; a non-list value (on which Python `len` or the later
iteration would fail) is abstracted as `otherExc`. -/
def get_vehicle_data (s : ApiState) (t : TransportOutcome) :
    Except PolErr (List Json) × ApiState :=
  match query_graph_ql s .base t with
  | (.ok r, s') =>
      match jsonGet r CAR_INFO_DATA with
      | some Json.null => (.error .noData, s')
      | some (Json.arr []) => (.error .noData, s')
      | some (Json.arr cars) => (.ok cars, s')
      | some _ => (.error .otherExc, s')
      | none => (.error .keyError, s')
  | (.notAuthorized _, s') => (.error .notAuthorized, s')
  | (.apiError, s') => (.error .apiFailure, s')
  | (.otherExc, s') => (.error .otherExc, s')

/-- The `for data in car_data` loop of `async_init`: skip VINs outside the
configured subset (`if self.configured_vins and vin not in ...`; an empty set
is falsy, so no filtering), store the record in `car_data_by_vin`, and create
the `CAR_INFO_DATA` cache entry.  `data["vin"]` on a record without the key is
a `KeyError`; a non-string or non-dict record is abstracted as `otherExc`.
On an exception the partially-populated state is kept. -/
def populate_cars (now : Int) : ApiState → List Json → Except PolErr Unit × ApiState
  | s, [] => (.ok (), s)
  | s, data :: rest =>
      match data with
      | .obj kvs =>
          match lookupKey kvs "vin" with
          | some (Json.str vin) =>
              if (match s.configured_vins with
                  | some cfg => !cfg.isEmpty && !cfg.contains vin
                  | none => false) then
                populate_cars now s rest
              else
                populate_cars now
                  (write_cache
                    { s with car_data_by_vin :=
                        dictInsert s.car_data_by_vin vin data }
                    vin CAR_INFO_DATA data now)
                  rest
          | some _ => (.error .otherExc, s)
          | none => (.error .keyError, s)
      | _ => (.error .otherExc, s)

/-- `PolestarApi.async_init()`.  Note the source's quiet paths: when
`auth.access_token is None`, or when the (unreachable, since
`_get_vehicle_data` raises first) vehicle list is falsy, it logs a warning and
returns normally instead of raising. -/
def async_init (s : ApiState) (env : InitEnv) : Except PolErr Unit × ApiState :=
  if ¬ env.auth_init_ok then (.error .authFailure, s)
  else if ¬ env.get_token_ok then (.error .authFailure, s)
  else
    match env.access_token with
    | none => (.ok (), s)
    | some _ =>
        match get_vehicle_data s env.inventory with
        | (.error e, s') => (.error e, s')
        | (.ok cars, s') =>
            if cars.isEmpty then (.ok (), s')
            else populate_cars env.now s' cars

/-- The `vins` property: `list(self.car_data_by_vin.keys())`. -/
def vins (s : ApiState) : List String :=
  s.car_data_by_vin.map Prod.fst

/-! ## Derived views used in theorem statements -/

/-- Whether the token-expiry phase of a cycle lets the sub-fetches proceed:
an expiry must be known, and if it is closer than 300 seconds the forced
token refresh must succeed. -/
def authPasses (env : RefreshEnv) : Bool :=
  match env.token_expiry with
  | none => false
  | some expiry =>
      if expiry - env.now_expiry < 300 then env.refresh_ok else true

/-- The auth-collaborator calls the token-expiry phase makes. -/
def authActs (env : RefreshEnv) : List Action :=
  match env.token_expiry with
  | none => []
  | some expiry =>
      if expiry - env.now_expiry < 300 then [Action.tokenRefresh true] else []

/-- A transport outcome within the failure model of the spec's collaborators:
failures are classified GraphQL error payloads, and a successful decoded
result contains the requested sub-object key. -/
def fetchWF (t : TransportOutcome) (key : String) : Bool :=
  match t with
  | .success r => (jsonGet r key).isSome
  | .queryError _ => true
  | .otherError => false

/-- Whether a GraphQL error list is classified `Unauthorized` by
`_query_graph_ql` (first error's `extensions.code` is `"UNAUTHENTICATED"`). -/
def isUnauthErrors (errors : List GqlError) : Bool :=
  match errors with
  | e :: _ => e.code = "UNAUTHENTICATED"
  | [] => false

/-! ## Helper lemmas -/

theorem lookupKey_nil {α : Type} (k : String) :
    lookupKey ([] : List (String × α)) k = none := rfl

theorem lookupKey_ne_nil {α : Type} {kvs : List (String × α)} {k : String}
    {v : α} (h : lookupKey kvs k = some v) : kvs ≠ [] := by
  intro hnil
  rw [hnil] at h
  exact Option.noConfusion h

theorem isEmpty_false_of_lookupKey {α : Type} {kvs : List (String × α)}
    {k : String} {v : α} (h : lookupKey kvs k = some v) :
    kvs.isEmpty = false := by
  cases kvs with
  | nil => exact absurd h (by simp [lookupKey])
  | cons hd tl => rfl

theorem ddGet_found {table : List (String × List (String × CacheEntry))}
    {vin : String} {inner : List (String × CacheEntry)}
    (h : lookupKey table vin = some inner) :
    ddGet table vin = (inner, table) := by
  unfold ddGet
  rw [h]

theorem ddGet_missing {table : List (String × List (String × CacheEntry))}
    {vin : String} (h : lookupKey table vin = none) :
    ddGet table vin = ([], table ++ [(vin, [])]) := by
  unfold ddGet
  rw [h]

theorem cacheLookup_decomp {s : ApiState} {vin query : String} {e : CacheEntry}
    (h : cacheLookup s vin query = some e) :
    ∃ inner, lookupKey s.cache_data_by_vin vin = some inner ∧
      lookupKey inner query = some e := by
  unfold cacheLookup at h
  cases htab : lookupKey s.cache_data_by_vin vin with
  | none => rw [htab] at h; exact Option.noConfusion h
  | some inner => rw [htab] at h; exact ⟨inner, rfl, h⟩

theorem lookupKey_dictInsert_self {α : Type} (kvs : List (String × α))
    (k : String) (v : α) : lookupKey (dictInsert kvs k v) k = some v := by
  induction kvs with
  | nil => simp [dictInsert, lookupKey]
  | cons hd tl ih =>
      obtain ⟨k', v'⟩ := hd
      by_cases hk : k' = k
      · simp [dictInsert, hk, lookupKey]
      · simp [dictInsert, hk, lookupKey, ih]

theorem lookupKey_dictInsert_ne {α : Type} (kvs : List (String × α))
    (k k' : String) (v : α) (hne : k' ≠ k) :
    lookupKey (dictInsert kvs k v) k' = lookupKey kvs k' := by
  induction kvs with
  | nil => simp [dictInsert, lookupKey, Ne.symm hne]
  | cons hd tl ih =>
      obtain ⟨k₀, v₀⟩ := hd
      by_cases hk : k₀ = k
      · subst hk
        simp [dictInsert, lookupKey, Ne.symm hne]
      · simp [dictInsert, hk, lookupKey, ih]

theorem lookupKey_append_one {α : Type} (kvs : List (String × α))
    (k x : String) (v : α) :
    lookupKey (kvs ++ [(k, v)]) x =
      match lookupKey kvs x with
      | some w => some w
      | none => if k = x then some v else none := by
  induction kvs with
  | nil => simp [lookupKey]
  | cons hd tl ih =>
      obtain ⟨k₀, v₀⟩ := hd
      by_cases hk : k₀ = x
      · simp [lookupKey, hk]
      · simp [lookupKey, hk, ih]

theorem reset_updating (s : ApiState) (h : s.updating = false) :
    { s with updating := false } = s := by
  cases s
  simp_all

theorem dictInsert_append_self {α : Type} (t : List (String × α)) (k : String)
    (x v : α) (h : lookupKey t k = none) :
    dictInsert (t ++ [(k, x)]) k v = t ++ [(k, v)] := by
  induction t with
  | nil => simp [dictInsert]
  | cons hd tl ih =>
      obtain ⟨k₀, v₀⟩ := hd
      by_cases hk : k₀ = k
      · rw [show lookupKey ((k₀, v₀) :: tl) k = some v₀ by
            simp [lookupKey, hk]] at h
        exact Option.noConfusion h
      · rw [show lookupKey ((k₀, v₀) :: tl) k = lookupKey tl k by
            simp [lookupKey, hk]] at h
        simp [dictInsert, hk, ih h]

theorem write_cache_cacheLookup (s : ApiState) (vin k : String) (v : Json)
    (ts : Int) (vin' k' : String) :
    cacheLookup (write_cache s vin k v ts) vin' k' =
      if vin' = vin ∧ k' = k then some ⟨v, ts⟩
      else cacheLookup s vin' k' := by
  unfold write_cache cacheLookup
  cases htab : lookupKey s.cache_data_by_vin vin with
  | some inner =>
      rw [ddGet_found htab]
      by_cases hv : vin' = vin
      · subst hv
        simp only [lookupKey_dictInsert_self]
        by_cases hk : k' = k
        · subst hk
          simp [lookupKey_dictInsert_self]
        · simp [hk, lookupKey_dictInsert_ne _ _ _ _ hk, htab]
      · rw [lookupKey_dictInsert_ne _ _ _ _ hv]
        simp [hv]
  | none =>
      rw [ddGet_missing htab]
      dsimp only
      rw [dictInsert_append_self _ _ _ _ htab]
      by_cases hv : vin' = vin
      · subst hv
        rw [lookupKey_append_one, htab]
        by_cases hk : k' = k
        · subst hk
          simp [lookupKey, dictInsert]
        · simp [hk, lookupKey, dictInsert, Ne.symm hk, htab]
      · rw [lookupKey_append_one]
        cases hx : lookupKey s.cache_data_by_vin vin' with
        | some w => simp [hv]
        | none => simp [hv, Ne.symm hv]

/-- Everything a sub-fetch and the status recording leave alone: every field
of the state except the cache table and the two call-status fields. -/
def sameMeta (s1 s2 : ApiState) : Prop :=
  s1.next_update = s2.next_update ∧ s1.updating = s2.updating ∧
  s1.next_update_delay = s2.next_update_delay ∧
  s1.car_data_by_vin = s2.car_data_by_vin ∧ s1.cache_ttl = s2.cache_ttl ∧
  s1.configured_vins = s2.configured_vins

theorem sameMeta_refl (s : ApiState) : sameMeta s s := by
  simp [sameMeta]

theorem sameMeta_trans {s1 s2 s3 : ApiState} (h1 : sameMeta s1 s2)
    (h2 : sameMeta s2 s3) : sameMeta s1 s3 := by
  unfold sameMeta at *
  obtain ⟨a1, b1, c1, d1, e1, f1⟩ := h1
  obtain ⟨a2, b2, c2, d2, e2, f2⟩ := h2
  exact ⟨a1.trans a2, b1.trans b2, c1.trans c2, d1.trans d2, e1.trans e2,
    f1.trans f2⟩

theorem set_latest_call_code_meta (s : ApiState) (url : Url) (code : Int) :
    sameMeta (set_latest_call_code s url code) s ∧
    (set_latest_call_code s url code).cache_data_by_vin =
      s.cache_data_by_vin := by
  cases url <;> simp [set_latest_call_code, sameMeta]

theorem query_graph_ql_frame (s : ApiState) (url : Url) (t : TransportOutcome) :
    sameMeta (query_graph_ql s url t).2 s ∧
    (query_graph_ql s url t).2.cache_data_by_vin = s.cache_data_by_vin := by
  cases t with
  | success r =>
      exact set_latest_call_code_meta s url 200
  | queryError errors =>
      cases errors with
      | nil => exact set_latest_call_code_meta s url 500
      | cons e rest =>
          by_cases hc : e.code = "UNAUTHENTICATED" <;>
            simp only [query_graph_ql, hc, if_true, if_false, reduceIte] <;>
            first
              | exact set_latest_call_code_meta s url 401
              | exact set_latest_call_code_meta s url 500
  | otherError => exact ⟨sameMeta_refl s, rfl⟩

theorem write_cache_meta (s : ApiState) (vin k : String) (v : Json) (ts : Int) :
    sameMeta (write_cache s vin k v ts) s := by
  simp [write_cache, sameMeta]

theorem cacheLookup_congr {s1 s2 : ApiState}
    (h : s1.cache_data_by_vin = s2.cache_data_by_vin) (vin k : String) :
    cacheLookup s1 vin k = cacheLookup s2 vin k := by
  unfold cacheLookup
  rw [h]

theorem sub_fetch_meta (s : ApiState) (vin key : String) (t : TransportOutcome)
    (now : Int) : sameMeta (sub_fetch s vin key t now).2 s := by
  unfold sub_fetch
  rcases hq : query_graph_ql s .baseV2 t with ⟨qr, s'⟩
  have hf := query_graph_ql_frame s .baseV2 t
  rw [hq] at hf
  cases qr with
  | ok r =>
      cases hj : jsonGet r key with
      | some v =>
          simpa [hj] using sameMeta_trans (write_cache_meta s' vin key v now) hf.1
      | none => simpa [hj] using hf.1
  | notAuthorized m => exact hf.1
  | apiError => exact hf.1
  | otherExc => exact hf.1

theorem call_api_meta (s : ApiState) (vin key : String) (act : Action)
    (t : TransportOutcome) (now : Int) (tok : Bool) :
    sameMeta (call_api s vin key act t now tok).2.1 s := by
  unfold call_api
  rcases hs : sub_fetch s vin key t now with ⟨r, s'⟩
  have hm := sub_fetch_meta s vin key t now
  rw [hs] at hm
  cases r with
  | ok u => exact hm
  | error e =>
      cases e with
      | notAuthorized => cases tok <;> simpa using hm
      | apiFailure =>
          simpa using sameMeta_trans (set_latest_call_code_meta s' .baseV2 500).1 hm
      | authFailure => exact hm
      | noData => exact hm
      | keyError => exact hm
      | otherExc => exact hm

theorem call_api_acts (s : ApiState) (vin key : String) (act : Action)
    (t : TransportOutcome) (now : Int) (tok : Bool) :
    (call_api s vin key act t now tok).2.2 = [act] ∨
    (call_api s vin key act t now tok).2.2 = [act, Action.tokenRefresh false] := by
  unfold call_api
  rcases hs : sub_fetch s vin key t now with ⟨r, s'⟩
  cases r with
  | ok u => exact Or.inl rfl
  | error e =>
      cases e with
      | notAuthorized => cases tok <;> simp
      | apiFailure => exact Or.inl rfl
      | authFailure => exact Or.inl rfl
      | noData => exact Or.inl rfl
      | keyError => exact Or.inl rfl
      | otherExc => exact Or.inl rfl

theorem call_api_mem_acts (s : ApiState) (vin key : String) (act : Action)
    (t : TransportOutcome) (now : Int) (tok : Bool) :
    act ∈ (call_api s vin key act t now tok).2.2 := by
  rcases call_api_acts s vin key act t now tok with h | h <;> rw [h] <;> simp

theorem call_api_ok_of_wf (s : ApiState) (vin key : String) (act : Action)
    (t : TransportOutcome) (now : Int) (tok : Bool)
    (hwf : fetchWF t key = true) (htok : tok = true) :
    (call_api s vin key act t now tok).1 = .ok () := by
  subst htok
  unfold call_api sub_fetch
  cases t with
  | success r =>
      cases hj : jsonGet r key with
      | some v => simp [query_graph_ql, hj]
      | none => rw [fetchWF, hj] at hwf; exact Bool.noConfusion hwf
  | queryError errors =>
      cases errors with
      | nil => simp [query_graph_ql]
      | cons e rest =>
          by_cases hc : e.code = "UNAUTHENTICATED" <;>
            simp [query_graph_ql, hc]
  | otherError => rw [fetchWF] at hwf; exact Bool.noConfusion hwf

theorem set_latest_call_code_cache (s : ApiState) (url : Url) (code : Int) :
    (set_latest_call_code s url code).cache_data_by_vin =
      s.cache_data_by_vin := by
  cases url <;> rfl

theorem call_api_cache_of_fail (s : ApiState) (vin key : String) (act : Action)
    (t : TransportOutcome) (now : Int) (tok : Bool)
    (hfail : ∀ r, t ≠ TransportOutcome.success r) :
    (call_api s vin key act t now tok).2.1.cache_data_by_vin =
      s.cache_data_by_vin := by
  unfold call_api sub_fetch
  cases t with
  | success r => exact absurd rfl (hfail r)
  | queryError errors =>
      cases errors with
      | nil => simp [query_graph_ql, set_latest_call_code]
      | cons e rest =>
          by_cases hc : e.code = "UNAUTHENTICATED" <;>
            cases tok <;>
              simp [query_graph_ql, hc, set_latest_call_code]
  | otherError => rfl

theorem call_api_cacheLookup_ne (s : ApiState) (vin key : String)
    (act : Action) (t : TransportOutcome) (now : Int) (tok : Bool)
    (vin' k' : String) (hk : k' ≠ key) :
    cacheLookup (call_api s vin key act t now tok).2.1 vin' k' =
      cacheLookup s vin' k' := by
  cases t with
  | success r =>
      unfold call_api sub_fetch
      cases hj : jsonGet r key with
      | some v =>
          simp only [query_graph_ql, hj]
          rw [write_cache_cacheLookup]
          simp only [hk, and_false, if_false]
          exact cacheLookup_congr (set_latest_call_code_cache s .baseV2 200) vin' k'
      | none =>
          simp only [query_graph_ql, hj]
          exact cacheLookup_congr (set_latest_call_code_cache s .baseV2 200) vin' k'
  | queryError errors =>
      exact cacheLookup_congr
        (call_api_cache_of_fail s vin key act (.queryError errors) now tok
          (fun r h => TransportOutcome.noConfusion h)) vin' k'
  | otherError =>
      exact cacheLookup_congr
        (call_api_cache_of_fail s vin key act .otherError now tok
          (fun r h => TransportOutcome.noConfusion h)) vin' k'

theorem auth_check_pass (s : ApiState) (env : RefreshEnv)
    (h : authPasses env = true) :
    auth_check s env = (true, s, authActs env) := by
  unfold auth_check authActs
  unfold authPasses at h
  cases hte : env.token_expiry with
  | none => rw [hte] at h; simp at h
  | some expiry =>
      rw [hte] at h
      by_cases hcl : expiry - env.now_expiry < 300
      · simp only [hcl, if_true] at h
        simp [hcl, h]
      · simp [hcl]

theorem auth_check_fail (s : ApiState) (env : RefreshEnv)
    (h : authPasses env = false) :
    auth_check s env = (false, set_latest_call_code s .base 500, authActs env) := by
  unfold auth_check authActs
  unfold authPasses at h
  cases hte : env.token_expiry with
  | none => simp
  | some expiry =>
      rw [hte] at h
      by_cases hcl : expiry - env.now_expiry < 300
      · simp only [hcl, if_true] at h
        simp [hcl, h]
      · simp only [hcl, if_false] at h
        simp at h

theorem throttleActive_updating (s : ApiState) (b : Bool) (now : Int) :
    throttleActive { s with updating := b } now = throttleActive s now := rfl

theorem get_ev_data_locked (s : ApiState) (env : RefreshEnv) (vin : String)
    (h : s.updating = true) :
    get_ev_data s env vin = (.ok (), s, []) := by
  unfold get_ev_data
  rw [if_pos h]

theorem get_ev_data_throttled (s : ApiState) (env : RefreshEnv) (vin : String)
    (h : s.updating = false) (ht : throttleActive s env.now_throttle = true) :
    get_ev_data s env vin = (.ok (), s, []) := by
  unfold get_ev_data
  rw [if_neg (by simp [h])]
  dsimp only
  rw [throttleActive_updating, ht]
  simp only [if_true]
  cases s
  simp_all

theorem get_ev_data_auth_abort (s : ApiState) (env : RefreshEnv) (vin : String)
    (h : s.updating = false) (ht : throttleActive s env.now_throttle = false)
    (ha : authPasses env = false) :
    get_ev_data s env vin =
      (.ok (), set_latest_call_code s .base 500, authActs env) := by
  unfold get_ev_data
  rw [if_neg (by simp [h])]
  dsimp only
  rw [throttleActive_updating, ht]
  simp only [Bool.false_eq_true, if_false]
  rw [auth_check_fail _ _ ha]
  dsimp only
  cases s
  simp_all [set_latest_call_code]

theorem get_ev_data_run_odo_err (s : ApiState) (env : RefreshEnv) (vin : String)
    (h : s.updating = false) (ht : throttleActive s env.now_throttle = false)
    (ha : authPasses env = true) (e : PolErr) (s3 : ApiState) (a3 : List Action)
    (hodo : call_api { s with updating := true } vin ODO_METER_DATA
        Action.fetchOdometer env.odometer env.now_odo env.odo_token_ok =
        (.error e, s3, a3)) :
    get_ev_data s env vin =
      (.error e, { s3 with updating := false }, authActs env ++ a3) := by
  unfold get_ev_data
  rw [if_neg (by simp [h])]
  dsimp only
  rw [throttleActive_updating, ht]
  simp only [Bool.false_eq_true, if_false]
  rw [auth_check_pass _ _ ha]
  dsimp only
  rw [hodo]

theorem get_ev_data_run_bat_err (s : ApiState) (env : RefreshEnv) (vin : String)
    (h : s.updating = false) (ht : throttleActive s env.now_throttle = false)
    (ha : authPasses env = true) (u3 : Unit) (s3 : ApiState) (a3 : List Action)
    (e : PolErr) (s4 : ApiState) (a4 : List Action)
    (hodo : call_api { s with updating := true } vin ODO_METER_DATA
        Action.fetchOdometer env.odometer env.now_odo env.odo_token_ok =
        (.ok u3, s3, a3))
    (hbat : call_api s3 vin BATTERY_DATA Action.fetchBattery env.battery
        env.now_bat env.bat_token_ok = (.error e, s4, a4)) :
    get_ev_data s env vin =
      (.error e, { s4 with updating := false }, authActs env ++ a3 ++ a4) := by
  unfold get_ev_data
  rw [if_neg (by simp [h])]
  dsimp only
  rw [throttleActive_updating, ht]
  simp only [Bool.false_eq_true, if_false]
  rw [auth_check_pass _ _ ha]
  dsimp only
  rw [hodo]
  dsimp only
  rw [hbat]

theorem get_ev_data_run_done (s : ApiState) (env : RefreshEnv) (vin : String)
    (h : s.updating = false) (ht : throttleActive s env.now_throttle = false)
    (ha : authPasses env = true) (u3 u4 : Unit) (s3 s4 : ApiState)
    (a3 a4 : List Action)
    (hodo : call_api { s with updating := true } vin ODO_METER_DATA
        Action.fetchOdometer env.odometer env.now_odo env.odo_token_ok =
        (.ok u3, s3, a3))
    (hbat : call_api s3 vin BATTERY_DATA Action.fetchBattery env.battery
        env.now_bat env.bat_token_ok = (.ok u4, s4, a4)) :
    get_ev_data s env vin =
      (.ok (),
       { s4 with next_update := some (env.now_end + s4.next_update_delay),
                 updating := false },
       authActs env ++ a3 ++ a4) := by
  unfold get_ev_data
  rw [if_neg (by simp [h])]
  dsimp only
  rw [throttleActive_updating, ht]
  simp only [Bool.false_eq_true, if_false]
  rw [auth_check_pass _ _ ha]
  dsimp only
  rw [hodo]
  dsimp only
  rw [hbat]

theorem get_latest_data_found (s : ApiState) (vin q f : String) (e : CacheEntry)
    (h : cacheLookup s vin q = some e) :
    get_latest_data s vin q f =
      (.ok (if e.data.isNull then Json.bool false
            else get_field_name_value f e.data), s) := by
  obtain ⟨inner, htab, hq⟩ := cacheLookup_decomp h
  unfold get_latest_data
  rw [isEmpty_false_of_lookupKey htab]
  simp only [Bool.false_eq_true, if_false]
  rw [ddGet_found htab]
  dsimp only
  rw [hq]
  by_cases hn : e.data.isNull <;> simp [hn]

theorem get_latest_data_table_empty (s : ApiState) (vin q f : String)
    (h : s.cache_data_by_vin = []) :
    get_latest_data s vin q f = (.ok Json.null, s) := by
  unfold get_latest_data
  rw [h]
  rfl

theorem get_latest_data_missing (s : ApiState) (vin q f : String)
    (hne : s.cache_data_by_vin ≠ []) (h : cacheLookup s vin q = none) :
    (get_latest_data s vin q f).1 = .error .keyError := by
  unfold get_latest_data
  rw [show s.cache_data_by_vin.isEmpty = false by
        cases hx : s.cache_data_by_vin with
        | nil => exact absurd hx hne
        | cons a l => rfl]
  simp only [Bool.false_eq_true, if_false]
  unfold cacheLookup at h
  cases htab : lookupKey s.cache_data_by_vin vin with
  | none =>
      rw [ddGet_missing htab]
      rfl
  | some inner =>
      rw [htab] at h
      dsimp only at h
      rw [ddGet_found htab]
      dsimp only
      rw [h]

theorem get_cache_data_found (s : ApiState) (now : Int) (vin q f : String)
    (sc : Bool) (e : CacheEntry) (h : cacheLookup s vin q = some e) :
    get_cache_data s now vin q f sc =
      (if ¬ e.data.isNull ∧ (sc ∨ e.timestamp + s.cache_ttl > now)
       then get_field_name_value f e.data else Json.null, s) := by
  obtain ⟨inner, htab, hq⟩ := cacheLookup_decomp h
  unfold get_cache_data
  rw [isEmpty_false_of_lookupKey htab]
  simp only [Bool.false_eq_true, if_false]
  rw [ddGet_found htab]
  dsimp only
  rw [hq]
  dsimp only
  split <;> rename_i hc <;> simp [hc]

theorem get_cache_data_missing (s : ApiState) (now : Int) (vin q f : String)
    (sc : Bool) (h : cacheLookup s vin q = none) :
    (get_cache_data s now vin q f sc).1 = Json.null := by
  unfold get_cache_data
  by_cases he : s.cache_data_by_vin.isEmpty
  · rw [he]
    rfl
  · rw [show s.cache_data_by_vin.isEmpty = false by
          cases hx : s.cache_data_by_vin.isEmpty with
          | true => exact absurd hx he
          | false => rfl]
    simp only [Bool.false_eq_true, if_false]
    unfold cacheLookup at h
    cases htab : lookupKey s.cache_data_by_vin vin with
    | none =>
        rw [ddGet_missing htab]
        rfl
    | some inner =>
        rw [htab] at h
        dsimp only at h
        rw [ddGet_found htab]
        dsimp only
        rw [h]

theorem get_cache_data_state (s : ApiState) (now : Int) (vin q f : String)
    (sc : Bool) :
    (get_cache_data s now vin q f sc).2 = s ∨
    ((get_cache_data s now vin q f sc).2 =
        { s with cache_data_by_vin := s.cache_data_by_vin ++ [(vin, [])] } ∧
      lookupKey s.cache_data_by_vin vin = none) := by
  unfold get_cache_data
  by_cases he : s.cache_data_by_vin.isEmpty
  · rw [he]
    exact Or.inl rfl
  · rw [show s.cache_data_by_vin.isEmpty = false by
          cases hx : s.cache_data_by_vin.isEmpty with
          | true => exact absurd hx he
          | false => rfl]
    simp only [Bool.false_eq_true, if_false]
    cases htab : lookupKey s.cache_data_by_vin vin with
    | none =>
        rw [ddGet_missing htab]
        exact Or.inr ⟨rfl, rfl⟩
    | some inner =>
        rw [ddGet_found htab]
        dsimp only
        cases hq : lookupKey inner q with
        | none => exact Or.inl rfl
        | some e =>
            dsimp only
            split <;> exact Or.inl rfl

theorem get_latest_data_state (s : ApiState) (vin q f : String) :
    (get_latest_data s vin q f).2 = s ∨
    ((get_latest_data s vin q f).2 =
        { s with cache_data_by_vin := s.cache_data_by_vin ++ [(vin, [])] } ∧
      lookupKey s.cache_data_by_vin vin = none) := by
  unfold get_latest_data
  by_cases he : s.cache_data_by_vin.isEmpty
  · rw [he]
    exact Or.inl rfl
  · rw [show s.cache_data_by_vin.isEmpty = false by
          cases hx : s.cache_data_by_vin.isEmpty with
          | true => exact absurd hx he
          | false => rfl]
    simp only [Bool.false_eq_true, if_false]
    cases htab : lookupKey s.cache_data_by_vin vin with
    | none =>
        rw [ddGet_missing htab]
        exact Or.inr ⟨rfl, rfl⟩
    | some inner =>
        rw [ddGet_found htab]
        dsimp only
        cases hq : lookupKey inner q with
        | none => exact Or.inl rfl
        | some e =>
            dsimp only
            split <;> exact Or.inl rfl

theorem cacheLookup_append_empty (s : ApiState) (vin : String) (v k : String) :
    cacheLookup
      { s with cache_data_by_vin := s.cache_data_by_vin ++ [(vin, [])] } v k =
      cacheLookup s v k := by
  unfold cacheLookup
  dsimp only
  rw [lookupKey_append_one]
  cases hx : lookupKey s.cache_data_by_vin v with
  | some w => rfl
  | none =>
      by_cases hv : vin = v
      · subst hv
        simp [lookupKey]
      · simp [hv]

theorem splitCharList_ne_nil (sep : Char) (l : List Char) :
    splitCharList sep l ≠ [] := by
  cases l with
  | nil => simp [splitCharList]
  | cons c rest =>
      unfold splitCharList
      cases splitCharList sep rest with
      | nil => by_cases hc : c = sep <;> simp [hc]
      | cons w ws => by_cases hc : c = sep <;> simp [hc]

theorem pySplit_ne_nil (s : String) (sep : Char) : pySplit s sep ≠ [] := by
  unfold pySplit
  intro h
  exact splitCharList_ne_nil sep s.data (List.map_eq_nil_iff.mp h)

theorem chainLookup_not_obj (k : String) (ks : List String) (d : Json)
    (hnd : ∀ kvs, d ≠ Json.obj kvs) :
    get_field_name_value.chainLookup (k :: ks) d = Json.null := by
  cases d with
  | obj kvs => exact absurd rfl (hnd kvs)
  | null => rfl
  | bool b => rfl
  | num n => rfl
  | str s => rfl
  | arr xs => rfl

theorem gfnv_not_obj (d : Json) (p : String)
    (hnd : ∀ kvs, d ≠ Json.obj kvs) :
    get_field_name_value p d = Json.null := by
  by_cases hnull : d = Json.null
  · subst hnull; rfl
  · have hn : d.isNull = false := by
      cases d
      · exact absurd rfl hnull
      all_goals rfl
    unfold get_field_name_value
    rw [hn]
    simp only [Bool.false_eq_true, if_false]
    by_cases hc : pyContains p '/' = true
    · rw [if_pos hc]
      cases hsp : pySplit p '/' with
      | nil => exact absurd hsp (pySplit_ne_nil p '/')
      | cons k ks => exact chainLookup_not_obj k ks d hnd
    · rw [if_neg hc]

/-! ## Claims -/

/-- **C7**: `_get_field_name_value` treats the path as a plain key or a
`/`-delimited chain of keys applied successively to nested mappings; it
short-circuits to missing (`None`) the moment a key is absent or the current
value is not a mapping, and is total (never throws — it is a total Lean
function).  In particular, for data `{"a": {"b": 5}}`, path `"a/b"` yields 5,
path `"a/c"` yields missing, and any path applied to a non-mapping value
yields missing. -/
theorem c7_field_path_resolution :
    (∀ (d : Json) (p : String), (∀ kvs, d ≠ Json.obj kvs) →
        get_field_name_value p d = Json.null) ∧
    (∀ (p : String) (kvs : List (String × Json)), pyContains p '/' = true →
        get_field_name_value p (Json.obj kvs) =
          get_field_name_value.chainLookup (pySplit p '/') (Json.obj kvs)) ∧
    (∀ (p : String) (kvs : List (String × Json)), pyContains p '/' = false →
        get_field_name_value p (Json.obj kvs) =
          (match lookupKey kvs p with
           | some v => v
           | none => Json.null)) ∧
    (∀ (k : String) (ks : List String) (kvs : List (String × Json)) (v : Json),
        lookupKey kvs k = some v →
        get_field_name_value.chainLookup (k :: ks) (Json.obj kvs) =
          get_field_name_value.chainLookup ks v) ∧
    (∀ (k : String) (ks : List String) (kvs : List (String × Json)),
        lookupKey kvs k = none →
        get_field_name_value.chainLookup (k :: ks) (Json.obj kvs) =
          Json.null) ∧
    (∀ (k : String) (ks : List String) (d : Json),
        (∀ kvs, d ≠ Json.obj kvs) →
        get_field_name_value.chainLookup (k :: ks) d = Json.null) ∧
    get_field_name_value "a/b"
        (Json.obj [("a", Json.obj [("b", Json.num 5)])]) = Json.num 5 ∧
    get_field_name_value "a/c"
        (Json.obj [("a", Json.obj [("b", Json.num 5)])]) = Json.null ∧
    (∀ n : Int, get_field_name_value "x" (Json.num n) = Json.null) := by
  refine ⟨gfnv_not_obj, ?_, ?_, ?_, ?_, chainLookup_not_obj, rfl, rfl,
    fun n => rfl⟩
  · intro p kvs hc
    unfold get_field_name_value
    rw [if_neg (by simp [Json.isNull]), if_pos hc]
  · intro p kvs hc
    unfold get_field_name_value
    rw [if_neg (by simp [Json.isNull]), if_neg (by simp [hc])]
  · intro k ks kvs v h
    simp only [get_field_name_value.chainLookup, h]
  · intro k ks kvs h
    simp only [get_field_name_value.chainLookup, h]

/-- Witness for C7 at concrete inputs: a path applied to a non-mapping value
and a single-key chain step on a mapping that lacks the key. -/
theorem c7_witness :
    get_field_name_value "x" (Json.num 7) = Json.null ∧
    get_field_name_value.chainLookup ["k"] (Json.obj [("a", Json.num 1)]) =
      Json.null := by
  constructor
  · exact c7_field_path_resolution.1 (Json.num 7) "x"
      (fun kvs h => Json.noConfusion h)
  · exact c7_field_path_resolution.2.2.2.2.1 "k" [] [("a", Json.num 1)]
      (by rfl)

/-- **C10** (implicit): `get_latest_data` performs no staleness check — its
result neither reads `cache_ttl` nor any clock (the embedded operation takes
no time argument, mirroring the source, which never calls `datetime.now()`);
for an existing entry with non-absent data it resolves the field path and
returns the value regardless of the entry's arbitrary timestamp `ts`. -/
theorem c10_get_latest_data_no_staleness_check (s : ApiState)
    (vin q f : String) (d : Json) (ts : Int)
    (h : cacheLookup s vin q = some ⟨d, ts⟩) (hd : d ≠ Json.null) :
    (get_latest_data s vin q f).1 = .ok (get_field_name_value f d) ∧
    ∀ ttl', (get_latest_data { s with cache_ttl := ttl' } vin q f).1 =
      (get_latest_data s vin q f).1 := by
  have hn : Json.isNull d = false := by
    cases d
    · exact absurd rfl hd
    all_goals rfl
  have hmain : (get_latest_data s vin q f).1 =
      .ok (get_field_name_value f d) := by
    rw [get_latest_data_found s vin q f ⟨d, ts⟩ h]
    dsimp only
    rw [hn]
    rfl
  refine ⟨hmain, fun ttl' => ?_⟩
  have h' : cacheLookup { s with cache_ttl := ttl' } vin q = some ⟨d, ts⟩ := h
  rw [get_latest_data_found _ vin q f ⟨d, ts⟩ h', hmain]
  dsimp only
  rw [hn]
  rfl

/-- Witness for C10: a concrete entry whose timestamp lies far in the past is
still resolved. -/
theorem c10_witness :
    (get_latest_data
        ⟨false, none, none, none, [],
          [("V1", [(ODO_METER_DATA,
              ⟨Json.obj [("x", Json.num 1)], -1000000⟩)])], 300, 5, none⟩
        "V1" ODO_METER_DATA "x").1 = .ok (Json.num 1) := by
  have h := c10_get_latest_data_no_staleness_check
    ⟨false, none, none, none, [],
      [("V1", [(ODO_METER_DATA,
          ⟨Json.obj [("x", Json.num 1)], -1000000⟩)])], 300, 5, none⟩
    "V1" ODO_METER_DATA "x" (Json.obj [("x", Json.num 1)]) (-1000000)
    rfl (fun hx => Json.noConfusion hx)
  rw [h.1]
  rfl

/-- **C6**: for an existing entry with non-absent data (and a field path that
actually resolves, so that the value and missing are distinguishable),
`get_cache_data` with `skip_cache=false` returns missing exactly when
`timestamp + ttl <= now`, returns the resolved value exactly when
`timestamp + ttl > now`, and with `skip_cache=true` always returns the
resolved value regardless of age. -/
theorem c6_ttl_boundary (s : ApiState) (now : Int) (vin q f : String)
    (e : CacheEntry) (h : cacheLookup s vin q = some e)
    (hd : e.data ≠ Json.null)
    (hres : get_field_name_value f e.data ≠ Json.null) :
    ((get_cache_data s now vin q f false).1 = Json.null ↔
        e.timestamp + s.cache_ttl ≤ now) ∧
    ((get_cache_data s now vin q f false).1 = get_field_name_value f e.data ↔
        now < e.timestamp + s.cache_ttl) ∧
    (get_cache_data s now vin q f true).1 = get_field_name_value f e.data := by
  have hn : e.data.isNull = false := by
    cases hx : e.data
    · exact absurd hx hd
    all_goals rfl
  rw [get_cache_data_found s now vin q f false e h,
      get_cache_data_found s now vin q f true e h]
  dsimp only
  rw [hn]
  refine ⟨?_, ?_, ?_⟩
  · by_cases hlt : e.timestamp + s.cache_ttl > now
    · rw [if_pos ⟨by simp, Or.inr hlt⟩]
      constructor
      · intro hx; exact absurd hx hres
      · intro hge; exact absurd hge (by omega)
    · rw [if_neg (by simp [hlt])]
      constructor
      · intro _; omega
      · intro _; rfl
  · by_cases hlt : e.timestamp + s.cache_ttl > now
    · rw [if_pos ⟨by simp, Or.inr hlt⟩]
      constructor
      · intro _; exact hlt
      · intro _; rfl
    · rw [if_neg (by simp [hlt])]
      constructor
      · intro hx; exact absurd hx.symm hres
      · intro hge; exact absurd hge hlt
  · rw [if_pos ⟨by simp, Or.inl rfl⟩]

/-- Witness for C6: a fresh entry resolves, a stale entry of the same shape
returns missing, and `skip_cache` resurrects it. -/
theorem c6_witness :
    ((get_cache_data
        ⟨false, none, none, none, [],
          [("V1", [(ODO_METER_DATA, ⟨Json.obj [("x", Json.num 1)], 0⟩)])],
          300, 5, none⟩
        299 "V1" ODO_METER_DATA "x" false).1 = Json.num 1) ∧
    ((get_cache_data
        ⟨false, none, none, none, [],
          [("V1", [(ODO_METER_DATA, ⟨Json.obj [("x", Json.num 1)], 0⟩)])],
          300, 5, none⟩
        300 "V1" ODO_METER_DATA "x" false).1 = Json.null) ∧
    ((get_cache_data
        ⟨false, none, none, none, [],
          [("V1", [(ODO_METER_DATA, ⟨Json.obj [("x", Json.num 1)], 0⟩)])],
          300, 5, none⟩
        300 "V1" ODO_METER_DATA "x" true).1 = Json.num 1) := by
  have hfresh := c6_ttl_boundary
    ⟨false, none, none, none, [],
      [("V1", [(ODO_METER_DATA, ⟨Json.obj [("x", Json.num 1)], 0⟩)])],
      300, 5, none⟩
    299 "V1" ODO_METER_DATA "x" ⟨Json.obj [("x", Json.num 1)], 0⟩ rfl
    (fun hx => Json.noConfusion hx) (fun hx => Json.noConfusion hx)
  have hstale := c6_ttl_boundary
    ⟨false, none, none, none, [],
      [("V1", [(ODO_METER_DATA, ⟨Json.obj [("x", Json.num 1)], 0⟩)])],
      300, 5, none⟩
    300 "V1" ODO_METER_DATA "x" ⟨Json.obj [("x", Json.num 1)], 0⟩ rfl
    (fun hx => Json.noConfusion hx) (fun hx => Json.noConfusion hx)
  refine ⟨?_, ?_, ?_⟩
  · rw [hfresh.2.1.mpr (by decide)]
    rfl
  · exact hstale.1.mpr (by decide)
  · rw [hstale.2.2]
    rfl

/-- **C3, counterexample**: the claim fails on the code in two ways.
(1) `get_latest_data` is not total: with a non-empty cache table (here VIN
`"V1"` has a `CAR_INFO_DATA` entry) a lookup for VIN `"V2"` raises a raw
`KeyError` instead of returning missing (the guard indexes the plain inner
dict with `[query]`).
(2) `get_cache_data` does not return a distinguished known-empty result: for
an entry whose data is the absent marker it returns `None`, exactly the same
value it returns when the entry is missing. -/
theorem c3_counterexample :
    (get_latest_data
        ⟨false, none, none, none, [],
          [("V1", [(CAR_INFO_DATA, ⟨Json.obj [], 0⟩)])], 300, 5, none⟩
        "V2" ODO_METER_DATA "x").1 = Except.error PolErr.keyError ∧
    (get_cache_data
        ⟨false, none, none, none, [],
          [("V1", [(ODO_METER_DATA, ⟨Json.null, 0⟩)])], 300, 5, none⟩
        0 "V1" ODO_METER_DATA "x" false).1 = Json.null ∧
    (get_cache_data
        ⟨false, none, none, none, [],
          [("V1", [(ODO_METER_DATA, ⟨Json.null, 0⟩)])], 300, 5, none⟩
        0 "V1" CAR_INFO_DATA "x" false).1 = Json.null := by
  exact ⟨rfl, rfl, rfl⟩

/-- **C3, amended**: `get_cache_data` is total and returns missing (`None`)
both when no (VIN, query) entry exists and when the entry's data is the
absent marker (it does **not** distinguish known-empty from missing).
`get_latest_data` returns missing when the cache table is empty and a
distinguished known-empty (`False`) for an absent-marker entry, but it raises
`KeyError` instead of returning missing when the table is non-empty and the
(VIN, query) entry is missing. -/
theorem c3_amended (s : ApiState) (now : Int) (vin q f : String) :
    (cacheLookup s vin q = none →
      (get_cache_data s now vin q f false).1 = Json.null) ∧
    (∀ e, cacheLookup s vin q = some e → e.data = Json.null →
      (get_cache_data s now vin q f false).1 = Json.null) ∧
    (s.cache_data_by_vin = [] →
      (get_latest_data s vin q f).1 = .ok Json.null) ∧
    (∀ e, cacheLookup s vin q = some e → e.data = Json.null →
      (get_latest_data s vin q f).1 = .ok (Json.bool false)) ∧
    (s.cache_data_by_vin ≠ [] → cacheLookup s vin q = none →
      (get_latest_data s vin q f).1 = .error PolErr.keyError) := by
  refine ⟨?_, ?_, ?_, ?_, ?_⟩
  · exact get_cache_data_missing s now vin q f false
  · intro e he hd
    rw [get_cache_data_found s now vin q f false e he]
    have hn : e.data.isNull = true := by rw [hd]; rfl
    simp [hn]
  · intro h
    rw [get_latest_data_table_empty s vin q f h]
  · intro e he hd
    rw [get_latest_data_found s vin q f e he]
    have hn : e.data.isNull = true := by rw [hd]; rfl
    simp [hn]
  · exact fun hne h => get_latest_data_missing s vin q f hne h

/-- Witness for the amended C3: an absent-marker entry yields the
distinguished `False` from `get_latest_data` and plain missing from
`get_cache_data`. -/
theorem c3_witness :
    (get_latest_data
        ⟨false, none, none, none, [],
          [("V9", [(BATTERY_DATA, ⟨Json.null, 7⟩)])], 300, 5, none⟩
        "V9" BATTERY_DATA "y").1 = .ok (Json.bool false) ∧
    (get_cache_data
        ⟨false, none, none, none, [],
          [("V9", [(BATTERY_DATA, ⟨Json.null, 7⟩)])], 300, 5, none⟩
        8 "V9" BATTERY_DATA "y" false).1 = Json.null := by
  have h := c3_amended
    ⟨false, none, none, none, [],
      [("V9", [(BATTERY_DATA, ⟨Json.null, 7⟩)])], 300, 5, none⟩
    8 "V9" BATTERY_DATA "y"
  exact ⟨h.2.2.2.1 ⟨Json.null, 7⟩ rfl rfl, h.2.1 ⟨Json.null, 7⟩ rfl rfl⟩

/-- **C5, counterexample**: the readers are not mutation-free.  On a state
whose cache table holds only VIN `"V1"`, `get_cache_data` for the unseen VIN
`"V2"` inserts an empty inner dict for `"V2"` into `cache_data_by_vin` (the
`defaultdict` access), so the cache table after the "read" differs from the
one before it. -/
theorem c5_counterexample :
    lookupKey
      (get_cache_data
          ⟨false, none, none, none, [],
            [("V1", [(ODO_METER_DATA, ⟨Json.obj [], 0⟩)])], 300, 5, none⟩
          0 "V2" ODO_METER_DATA "x" false).2.cache_data_by_vin
      "V2" = some [] ∧
    lookupKey
      [("V1", [(ODO_METER_DATA,
          (⟨Json.obj [], 0⟩ : CacheEntry))])] "V2" =
      (none : Option (List (String × CacheEntry))) := by
  exact ⟨rfl, rfl⟩

/-- **C5, amended**: the readers mutate nothing observable except the
`defaultdict` side effect: a lookup may append an empty inner map for a
previously-unseen VIN to `cache_data_by_vin`.  The lock, the call-status
fields, `next_update`, `car_data_by_vin`, the TTL, and every existing
(VIN, query) cache entry are unchanged, and every subsequent cache lookup
observes the same entries. -/
theorem c5_amended (s : ApiState) (now : Int) (vin q f : String) (sc : Bool) :
    ((get_cache_data s now vin q f sc).2.updating = s.updating ∧
     (get_cache_data s now vin q f sc).2.latest_call_code =
        s.latest_call_code ∧
     (get_cache_data s now vin q f sc).2.latest_call_code_2 =
        s.latest_call_code_2 ∧
     (get_cache_data s now vin q f sc).2.next_update = s.next_update ∧
     (get_cache_data s now vin q f sc).2.car_data_by_vin =
        s.car_data_by_vin ∧
     (get_cache_data s now vin q f sc).2.cache_ttl = s.cache_ttl ∧
     (∀ v k, cacheLookup (get_cache_data s now vin q f sc).2 v k =
        cacheLookup s v k) ∧
     ((get_cache_data s now vin q f sc).2.cache_data_by_vin =
        s.cache_data_by_vin ∨
      (get_cache_data s now vin q f sc).2.cache_data_by_vin =
        s.cache_data_by_vin ++ [(vin, [])])) ∧
    ((get_latest_data s vin q f).2.updating = s.updating ∧
     (get_latest_data s vin q f).2.latest_call_code = s.latest_call_code ∧
     (get_latest_data s vin q f).2.latest_call_code_2 =
        s.latest_call_code_2 ∧
     (get_latest_data s vin q f).2.next_update = s.next_update ∧
     (get_latest_data s vin q f).2.car_data_by_vin = s.car_data_by_vin ∧
     (get_latest_data s vin q f).2.cache_ttl = s.cache_ttl ∧
     (∀ v k, cacheLookup (get_latest_data s vin q f).2 v k =
        cacheLookup s v k) ∧
     ((get_latest_data s vin q f).2.cache_data_by_vin =
        s.cache_data_by_vin ∨
      (get_latest_data s vin q f).2.cache_data_by_vin =
        s.cache_data_by_vin ++ [(vin, [])])) := by
  constructor
  · rcases get_cache_data_state s now vin q f sc with h | ⟨h, -⟩
    · rw [h]
      exact ⟨rfl, rfl, rfl, rfl, rfl, rfl, fun v k => rfl, Or.inl rfl⟩
    · rw [h]
      exact ⟨rfl, rfl, rfl, rfl, rfl, rfl,
        fun v k => cacheLookup_append_empty s vin v k, Or.inr rfl⟩
  · rcases get_latest_data_state s vin q f with h | ⟨h, -⟩
    · rw [h]
      exact ⟨rfl, rfl, rfl, rfl, rfl, rfl, fun v k => rfl, Or.inl rfl⟩
    · rw [h]
      exact ⟨rfl, rfl, rfl, rfl, rfl, rfl,
        fun v k => cacheLookup_append_empty s vin v k, Or.inr rfl⟩

/-- **C9, counterexample**: classification is not by message and does not
cover transport-level failures.  (1) A GraphQL error payload whose *message*
indicates "not authenticated" but whose `extensions.code` is not
`"UNAUTHENTICATED"` is classified `ApiFailure` with status 500 — not
`Unauthorized`/401 as the claim states.  (2) A non-`TransportQueryError`
transport failure (e.g. a raw HTTP 401) is re-raised unclassified and records
no status at all. -/
theorem c9_counterexample :
    (query_graph_ql
        ⟨false, none, none, none, [], [], 300, 5, none⟩ .baseV2
        (.queryError [⟨"INTERNAL_ERROR", "not authenticated"⟩])).1 =
      QueryResult.apiError ∧
    (query_graph_ql
        ⟨false, none, none, none, [], [], 300, 5, none⟩ .baseV2
        (.queryError
          [⟨"INTERNAL_ERROR",
            "not authenticated"⟩])).2.latest_call_code_2 = some 500 ∧
    (query_graph_ql
        ⟨false, none, none, none, [], [], 300, 5, none⟩ .baseV2
        .otherError).1 = QueryResult.otherExc ∧
    (query_graph_ql
        ⟨false, none, none, none, [], [], 300, 5, none⟩ .baseV2
        .otherError).2.latest_call_code_2 = none := by
  exact ⟨rfl, rfl, rfl, rfl⟩

/-- **C9, amended**: `_query_graph_ql` classifies only `TransportQueryError`
payloads, by the first error's `extensions.code`: `"UNAUTHENTICATED"` raises
`Unauthorized` carrying that error's message and records 401 for the
endpoint; any other GraphQL error payload (including an empty error list)
raises a bare `ApiFailure` (carrying no server message) and records 500; any
other exception is re-raised unclassified with no status recorded; a
successful call records 200.  The status is per endpoint: recording on one
endpoint leaves the other endpoint's status field unchanged. -/
theorem c9_amended (s : ApiState) (url : Url) (t : TransportOutcome) :
    (∀ r, t = .success r →
        query_graph_ql s url t = (.ok r, set_latest_call_code s url 200)) ∧
    (∀ e rest, t = .queryError (e :: rest) → e.code = "UNAUTHENTICATED" →
        query_graph_ql s url t =
          (.notAuthorized e.message, set_latest_call_code s url 401)) ∧
    (∀ e rest, t = .queryError (e :: rest) → e.code ≠ "UNAUTHENTICATED" →
        query_graph_ql s url t =
          (.apiError, set_latest_call_code s url 500)) ∧
    (t = .queryError [] →
        query_graph_ql s url t = (.apiError, set_latest_call_code s url 500)) ∧
    (t = .otherError → query_graph_ql s url t = (.otherExc, s)) ∧
    (∀ c, set_latest_call_code s .base c =
        { s with latest_call_code := some c }) ∧
    (∀ c, set_latest_call_code s .baseV2 c =
        { s with latest_call_code_2 := some c }) := by
  refine ⟨?_, ?_, ?_, ?_, ?_, fun c => rfl, fun c => rfl⟩
  · intro r h
    subst h
    rfl
  · intro e rest h hc
    subst h
    simp [query_graph_ql, hc]
  · intro e rest h hc
    subst h
    simp [query_graph_ql, hc]
  · intro h
    subst h
    rfl
  · intro h
    subst h
    rfl

/-- Witness for the amended C9: a payload with code `"UNAUTHENTICATED"`
raises `Unauthorized` with the server message and records 401 on the v2
endpoint. -/
theorem c9_witness :
    query_graph_ql ⟨false, none, none, none, [], [], 300, 5, none⟩ .baseV2
        (.queryError [⟨"UNAUTHENTICATED", "token rejected"⟩]) =
      (.notAuthorized "token rejected",
       ⟨false, none, some 401, none, [], [], 300, 5, none⟩) := by
  have h := (c9_amended ⟨false, none, none, none, [], [], 300, 5, none⟩
    .baseV2 (.queryError [⟨"UNAUTHENTICATED", "token rejected"⟩])).2.1
    ⟨"UNAUTHENTICATED", "token rejected"⟩ [] rfl rfl
  rw [h]
  rfl

/-- **C8, counterexample**: `async_init` does not surface the "no token"
auth failure: when the auth collaborator completes but leaves no access
token, `async_init` logs a warning and returns normally (no exception), with
the state unchanged — the claim says an `AuthFailure` should propagate. -/
theorem c8_counterexample :
    async_init ⟨false, none, none, none, [], [], 300, 5, none⟩
        ⟨true, true, none, .otherError, 0⟩ =
      (.ok (), ⟨false, none, none, none, [], [], 300, 5, none⟩) := rfl

/-- **C8, amended**: `async_init` propagates `AuthFailure` raised by the auth
collaborator's own calls, `ApiFailure` and `Unauthorized` from the inventory
fetch, and `NoDataFailure` when the inventory returns zero vehicles (leaving
the VIN list as it was, hence empty); but when the auth calls succeed while
producing no access token, it returns normally without raising. -/
theorem c8_amended (s : ApiState) (env : InitEnv) :
    (env.auth_init_ok = false →
        async_init s env = (.error .authFailure, s)) ∧
    (env.auth_init_ok = true → env.get_token_ok = false →
        async_init s env = (.error .authFailure, s)) ∧
    (env.auth_init_ok = true → env.get_token_ok = true →
        env.access_token = none → async_init s env = (.ok (), s)) ∧
    (∀ tok e rest, env.auth_init_ok = true → env.get_token_ok = true →
        env.access_token = some tok →
        env.inventory = .queryError (e :: rest) →
        e.code ≠ "UNAUTHENTICATED" →
        (async_init s env).1 = .error .apiFailure) ∧
    (∀ tok e rest, env.auth_init_ok = true → env.get_token_ok = true →
        env.access_token = some tok →
        env.inventory = .queryError (e :: rest) →
        e.code = "UNAUTHENTICATED" →
        (async_init s env).1 = .error .notAuthorized) ∧
    (∀ tok r, env.auth_init_ok = true → env.get_token_ok = true →
        env.access_token = some tok → env.inventory = .success r →
        jsonGet r CAR_INFO_DATA = some (Json.arr []) →
        (async_init s env).1 = .error .noData ∧
        vins (async_init s env).2 = vins s) := by
  refine ⟨?_, ?_, ?_, ?_, ?_, ?_⟩
  · intro h1
    simp [async_init, h1]
  · intro h1 h2
    simp [async_init, h1, h2]
  · intro h1 h2 h3
    simp [async_init, h1, h2, h3]
  · intro tok e rest h1 h2 h3 h4 h5
    simp only [async_init, h1, h2, h3, Bool.not_true, Bool.false_eq_true,
      if_false]
    rw [show get_vehicle_data s env.inventory =
          (.error .apiFailure, set_latest_call_code s .base 500) by
        unfold get_vehicle_data
        rw [h4]
        simp [query_graph_ql, h5]]
    simp
  · intro tok e rest h1 h2 h3 h4 h5
    simp only [async_init, h1, h2, h3, Bool.not_true, Bool.false_eq_true,
      if_false]
    rw [show get_vehicle_data s env.inventory =
          (.error .notAuthorized, set_latest_call_code s .base 401) by
        unfold get_vehicle_data
        rw [h4]
        simp [query_graph_ql, h5]]
    simp
  · intro tok r h1 h2 h3 h4 h5
    have hv : get_vehicle_data s env.inventory =
        (.error .noData, set_latest_call_code s .base 200) := by
      unfold get_vehicle_data
      rw [h4]
      simp [query_graph_ql, h5]
    constructor
    · simp only [async_init, h1, h2, h3, Bool.not_true, Bool.false_eq_true,
        if_false]
      rw [hv]
      simp
    · simp only [async_init, h1, h2, h3, Bool.not_true, Bool.false_eq_true,
        if_false]
      rw [hv]
      simp only [not_true, if_false, ite_false, if_neg]
      rfl

/-- Witness for the amended C8: an inventory reply with an empty vehicle list
makes `async_init` raise `NoDataFailure` and leaves `vins` empty. -/
theorem c8_witness :
    (async_init ⟨false, none, none, none, [], [], 300, 5, none⟩
        ⟨true, true, some "tok",
          .success (Json.obj [(CAR_INFO_DATA, Json.arr [])]), 0⟩).1 =
      .error .noData ∧
    vins (async_init ⟨false, none, none, none, [], [], 300, 5, none⟩
        ⟨true, true, some "tok",
          .success (Json.obj [(CAR_INFO_DATA, Json.arr [])]), 0⟩).2 = [] := by
  have h := (c8_amended ⟨false, none, none, none, [], [], 300, 5, none⟩
    ⟨true, true, some "tok",
      .success (Json.obj [(CAR_INFO_DATA, Json.arr [])]), 0⟩).2.2.2.2.2
    "tok" (Json.obj [(CAR_INFO_DATA, Json.arr [])]) rfl rfl rfl rfl rfl
  exact ⟨h.1, h.2⟩

theorem bool_not_true {b : Bool} (h : ¬ b = true) : b = false := by
  cases b
  · rfl
  · exact absurd rfl h

theorem fetchOdometer_not_mem_authActs (env : RefreshEnv) :
    Action.fetchOdometer ∉ authActs env := by
  unfold authActs
  cases env.token_expiry with
  | none => simp
  | some e => by_cases h : e - env.now_expiry < 300 <;> simp [h]

theorem call_api_ok_of_queryError (s : ApiState) (vin key : String)
    (act : Action) (errs : List GqlError) (now : Int) (tok : Bool)
    (h : isUnauthErrors errs = false ∨ tok = true) :
    (call_api s vin key act (.queryError errs) now tok).1 = .ok () := by
  unfold call_api sub_fetch
  cases errs with
  | nil => simp [query_graph_ql]
  | cons e rest =>
      by_cases hc : e.code = "UNAUTHENTICATED"
      · have htok : tok = true := by
          rcases h with h | h
          · rw [show isUnauthErrors (e :: rest) = true by
                simp [isUnauthErrors, hc]] at h
            exact Bool.noConfusion h
          · exact h
        simp [query_graph_ql, hc, htok]
      · simp [query_graph_ql, hc]

/-- **C1, counterexample**: `refresh` can raise.  With the lock free, no
throttle, and a valid far-future token expiry, let the odometer fetch succeed
but the battery fetch fail `Unauthorized`, and let the token refresh that the
`Unauthorized` handler performs itself raise `AuthFailure`: that
`AuthFailure` escapes `get_ev_data` to the caller (the `try/finally` only
releases the lock, it catches nothing). -/
theorem c1_counterexample :
    (get_ev_data ⟨false, none, none, none, [], [], 300, 5, none⟩
        ⟨0, some 1000, 0, true,
          .success (Json.obj [(ODO_METER_DATA, Json.obj [])]), 0, true,
          .queryError [⟨"UNAUTHENTICATED", "auth expired"⟩], 0, false,
          0⟩ "V1").1 =
      Except.error PolErr.authFailure := rfl

/-- **C1, amended**: `get_ev_data` never raises provided the transport
reports failures only as classified GraphQL error payloads (the spec's
`Unauthorized`/`ApiFailure`), successful payloads contain the requested
sub-object, and every token refresh performed by the `Unauthorized` handler
succeeds.  (Without the last proviso an `AuthFailure` from that handler
escapes, as the counterexample shows; a malformed success payload or an
unclassified transport exception also escapes.) -/
theorem c1_amended (s : ApiState) (env : RefreshEnv) (vin : String)
    (hodo : fetchWF env.odometer ODO_METER_DATA = true)
    (hbat : fetchWF env.battery BATTERY_DATA = true)
    (htok1 : env.odo_token_ok = true) (htok2 : env.bat_token_ok = true) :
    (get_ev_data s env vin).1 = .ok () := by
  by_cases hu : s.updating = true
  · rw [get_ev_data_locked s env vin hu]
  · have hu' := bool_not_true hu
    by_cases hth : throttleActive s env.now_throttle = true
    · rw [get_ev_data_throttled s env vin hu' hth]
    · have hth' := bool_not_true hth
      by_cases hap : authPasses env = true
      · rcases hcallo : call_api { s with updating := true } vin ODO_METER_DATA
            Action.fetchOdometer env.odometer env.now_odo env.odo_token_ok
          with ⟨r3, s3, a3⟩
        have hok3 : r3 = .ok () := by
          have hh := call_api_ok_of_wf { s with updating := true } vin
            ODO_METER_DATA Action.fetchOdometer env.odometer env.now_odo
            env.odo_token_ok hodo htok1
          rw [hcallo] at hh
          exact hh
        subst hok3
        rcases hcallb : call_api s3 vin BATTERY_DATA Action.fetchBattery
            env.battery env.now_bat env.bat_token_ok with ⟨r4, s4, a4⟩
        have hok4 : r4 = .ok () := by
          have hh := call_api_ok_of_wf s3 vin BATTERY_DATA Action.fetchBattery
            env.battery env.now_bat env.bat_token_ok hbat htok2
          rw [hcallb] at hh
          exact hh
        subst hok4
        rw [get_ev_data_run_done s env vin hu' hth' hap () () s3 s4 a3 a4
          hcallo hcallb]
      · have hap' := bool_not_true hap
        rw [get_ev_data_auth_abort s env vin hu' hth' hap']

/-- Witness for the amended C1: a full successful cycle returns normally. -/
theorem c1_witness :
    (get_ev_data ⟨false, none, none, none, [], [], 300, 5, none⟩
        ⟨0, some 1000, 0, true,
          .success (Json.obj [(ODO_METER_DATA, Json.obj [])]), 0, true,
          .success (Json.obj [(BATTERY_DATA, Json.obj [])]), 0, true,
          0⟩ "V1").1 = .ok () := by
  exact c1_amended ⟨false, none, none, none, [], [], 300, 5, none⟩
    ⟨0, some 1000, 0, true,
      .success (Json.obj [(ODO_METER_DATA, Json.obj [])]), 0, true,
      .success (Json.obj [(BATTERY_DATA, Json.obj [])]), 0, true, 0⟩
    "V1" rfl rfl rfl rfl

/-- **C2**: (i) a `get_ev_data` call that cannot acquire the lock is a no-op
— result normal, state unchanged, zero external calls; (ii) likewise when
`next_update` is set to a future instant; (iii) a call that ran its
sub-fetches (`fetchOdometer` appears in its action trace) and returned
normally leaves `next_update = now + next_update_delay` and the lock
released, so (iv) a second call within that cool-down window performs zero
external calls and changes nothing. -/
theorem c2_throttle_and_coalescing (s : ApiState) (env env2 : RefreshEnv)
    (vin vin2 : String) :
    (s.updating = true → get_ev_data s env vin = (.ok (), s, [])) ∧
    (∀ nu, s.updating = false → s.next_update = some nu →
        env.now_throttle < nu →
        get_ev_data s env vin = (.ok (), s, [])) ∧
    (∀ s1 acts, get_ev_data s env vin = (.ok (), s1, acts) →
        Action.fetchOdometer ∈ acts →
        s1.next_update = some (env.now_end + s.next_update_delay) ∧
        s1.updating = false ∧
        (env2.now_throttle < env.now_end + s.next_update_delay →
          get_ev_data s1 env2 vin2 = (.ok (), s1, []))) := by
  refine ⟨fun h => get_ev_data_locked s env vin h, ?_, ?_⟩
  · intro nu hu hnu hlt
    apply get_ev_data_throttled s env vin hu
    unfold throttleActive
    rw [hnu]
    simpa using hlt
  · intro s1 acts heq hmem
    by_cases hu : s.updating = true
    · rw [get_ev_data_locked s env vin hu] at heq
      have hacts := congrArg (fun p => p.2.2) heq
      dsimp only at hacts
      rw [← hacts] at hmem
      simp at hmem
    · have hu' := bool_not_true hu
      by_cases hth : throttleActive s env.now_throttle = true
      · rw [get_ev_data_throttled s env vin hu' hth] at heq
        have hacts := congrArg (fun p => p.2.2) heq
        dsimp only at hacts
        rw [← hacts] at hmem
        simp at hmem
      · have hth' := bool_not_true hth
        by_cases hap : authPasses env = true
        · rcases hcallo : call_api { s with updating := true } vin
              ODO_METER_DATA Action.fetchOdometer env.odometer env.now_odo
              env.odo_token_ok with ⟨r3, s3, a3⟩
          cases r3 with
          | error e =>
              rw [get_ev_data_run_odo_err s env vin hu' hth' hap e s3 a3
                hcallo] at heq
              have hres := congrArg (fun p => p.1) heq
              dsimp only at hres
              exact absurd hres (by simp)
          | ok u3 =>
              cases u3
              rcases hcallb : call_api s3 vin BATTERY_DATA
                  Action.fetchBattery env.battery env.now_bat
                  env.bat_token_ok with ⟨r4, s4, a4⟩
              cases r4 with
              | error e =>
                  rw [get_ev_data_run_bat_err s env vin hu' hth' hap () s3 a3
                    e s4 a4 hcallo hcallb] at heq
                  have hres := congrArg (fun p => p.1) heq
                  dsimp only at hres
                  exact absurd hres (by simp)
              | ok u4 =>
                  cases u4
                  rw [get_ev_data_run_done s env vin hu' hth' hap () () s3 s4
                    a3 a4 hcallo hcallb] at heq
                  have hs1 := congrArg (fun p => p.2.1) heq
                  dsimp only at hs1
                  have hm3 := call_api_meta { s with updating := true } vin
                    ODO_METER_DATA Action.fetchOdometer env.odometer
                    env.now_odo env.odo_token_ok
                  rw [hcallo] at hm3
                  have hm4 := call_api_meta s3 vin BATTERY_DATA
                    Action.fetchBattery env.battery env.now_bat
                    env.bat_token_ok
                  rw [hcallb] at hm4
                  have hdelay : s4.next_update_delay = s.next_update_delay := by
                    have hh := (sameMeta_trans hm4 hm3).2.2.1
                    simpa using hh
                  have hnu1 : s1.next_update =
                      some (env.now_end + s.next_update_delay) := by
                    rw [← hs1]
                    dsimp only
                    rw [hdelay]
                  have hu1 : s1.updating = false := by
                    rw [← hs1]
                  refine ⟨hnu1, hu1, fun hlt => ?_⟩
                  apply get_ev_data_throttled s1 env2 vin2 hu1
                  unfold throttleActive
                  rw [hnu1]
                  simpa using hlt
        · have hap' := bool_not_true hap
          rw [get_ev_data_auth_abort s env vin hu' hth' hap'] at heq
          have hacts := congrArg (fun p => p.2.2) heq
          dsimp only at hacts
          rw [← hacts] at hmem
          exact absurd hmem (fetchOdometer_not_mem_authActs env)

/-- Witness for C2: a concrete completed cycle (fresh state, both fetches
succeed) leaves `next_update = 10 + 5 = 15`, and a second call at time 14 is
a no-op with an empty action trace. -/
theorem c2_witness :
    get_ev_data
        ⟨false, none, none, some 15, [],
          [("V1", [(ODO_METER_DATA, ⟨Json.obj [], 3⟩),
                   (BATTERY_DATA, ⟨Json.obj [], 4⟩)])], 300, 5, none⟩
        ⟨14, some 1000, 0, true,
          .success (Json.obj [(ODO_METER_DATA, Json.obj [])]), 0, true,
          .success (Json.obj [(BATTERY_DATA, Json.obj [])]), 0, true, 0⟩
        "V1" =
      (.ok (),
       ⟨false, none, none, some 15, [],
         [("V1", [(ODO_METER_DATA, ⟨Json.obj [], 3⟩),
                  (BATTERY_DATA, ⟨Json.obj [], 4⟩)])], 300, 5, none⟩,
       []) := by
  exact (c2_throttle_and_coalescing
    ⟨false, none, none, some 15, [],
      [("V1", [(ODO_METER_DATA, ⟨Json.obj [], 3⟩),
               (BATTERY_DATA, ⟨Json.obj [], 4⟩)])], 300, 5, none⟩
    ⟨14, some 1000, 0, true,
      .success (Json.obj [(ODO_METER_DATA, Json.obj [])]), 0, true,
      .success (Json.obj [(BATTERY_DATA, Json.obj [])]), 0, true, 0⟩
    ⟨14, some 1000, 0, true,
      .success (Json.obj [(ODO_METER_DATA, Json.obj [])]), 0, true,
      .success (Json.obj [(BATTERY_DATA, Json.obj [])]), 0, true, 0⟩
    "V1" "V1").2.1 15 rfl rfl (by decide)

/-- **C4, counterexample**: a sub-fetch failure is not always swallowed.
When the odometer fetch fails `Unauthorized` and the single token refresh the
handler performs itself fails with `AuthFailure`, the battery fetch is *not*
attempted in that cycle and the failure propagates (the cache entries are
still untouched). -/
theorem c4_counterexample :
    (get_ev_data ⟨false, none, none, none, [], [], 300, 5, none⟩
        ⟨0, some 1000, 0, true,
          .queryError [⟨"UNAUTHENTICATED", "x"⟩], 0, false,
          .success (Json.obj [(BATTERY_DATA, Json.null)]), 0, true,
          0⟩ "V1").1 = Except.error PolErr.authFailure ∧
    (get_ev_data ⟨false, none, none, none, [], [], 300, 5, none⟩
        ⟨0, some 1000, 0, true,
          .queryError [⟨"UNAUTHENTICATED", "x"⟩], 0, false,
          .success (Json.obj [(BATTERY_DATA, Json.null)]), 0, true,
          0⟩ "V1").2.2 =
      [Action.fetchOdometer, Action.tokenRefresh false] ∧
    Action.fetchBattery ∉
      [Action.fetchOdometer, Action.tokenRefresh false] := by
  exact ⟨rfl, rfl, by decide⟩

/-- **C4, amended**: inside a cycle that reaches the sub-fetches, a sub-fetch
failing with a classified GraphQL error (Unauthorized or ApiFailure) leaves
the corresponding cache entry — data and timestamp — identical to its
pre-cycle value; an ApiFailure is swallowed and the other sub-fetch is still
attempted, and an Unauthorized is swallowed (with the battery fetch still
attempted) provided its single token-refresh attempt succeeds; if that
refresh fails, the cycle aborts with the battery fetch unattempted (entries
still untouched). -/
theorem c4_amended (s : ApiState) (env : RefreshEnv) (vin : String)
    (hu : s.updating = false)
    (hth : throttleActive s env.now_throttle = false)
    (hap : authPasses env = true) :
    (∀ errs, env.odometer = .queryError errs →
        cacheLookup (get_ev_data s env vin).2.1 vin ODO_METER_DATA =
          cacheLookup s vin ODO_METER_DATA ∧
        ((isUnauthErrors errs = false ∨ env.odo_token_ok = true) →
          Action.fetchBattery ∈ (get_ev_data s env vin).2.2)) ∧
    (∀ errs, env.battery = .queryError errs →
        cacheLookup (get_ev_data s env vin).2.1 vin BATTERY_DATA =
          cacheLookup s vin BATTERY_DATA) := by
  have hOB : ODO_METER_DATA ≠ BATTERY_DATA := by decide
  have hBO : BATTERY_DATA ≠ ODO_METER_DATA := by decide
  rcases hcallo : call_api { s with updating := true } vin ODO_METER_DATA
      Action.fetchOdometer env.odometer env.now_odo env.odo_token_ok
    with ⟨r3, s3, a3⟩
  constructor
  · intro errs hoq
    have hc3 : cacheLookup s3 vin ODO_METER_DATA =
        cacheLookup s vin ODO_METER_DATA := by
      have hh := call_api_cache_of_fail { s with updating := true } vin
        ODO_METER_DATA Action.fetchOdometer env.odometer env.now_odo
        env.odo_token_ok
        (by rw [hoq]; intro r hr; exact TransportOutcome.noConfusion hr)
      rw [hcallo] at hh
      exact cacheLookup_congr hh vin ODO_METER_DATA
    cases r3 with
    | error e =>
        rw [get_ev_data_run_odo_err s env vin hu hth hap e s3 a3 hcallo]
        dsimp only
        constructor
        · exact (cacheLookup_congr (rfl :
            ({ s3 with updating := false } : ApiState).cache_data_by_vin =
              s3.cache_data_by_vin) vin ODO_METER_DATA).trans hc3
        · intro hcase
          have hh := call_api_ok_of_queryError { s with updating := true }
            vin ODO_METER_DATA Action.fetchOdometer errs env.now_odo
            env.odo_token_ok hcase
          rw [← hoq, hcallo] at hh
          dsimp only at hh
          exact absurd hh (by simp)
    | ok u3 =>
        cases u3
        rcases hcallb : call_api s3 vin BATTERY_DATA Action.fetchBattery
            env.battery env.now_bat env.bat_token_ok with ⟨r4, s4, a4⟩
        have hc4 : cacheLookup s4 vin ODO_METER_DATA =
            cacheLookup s vin ODO_METER_DATA := by
          have hh := call_api_cacheLookup_ne s3 vin BATTERY_DATA
            Action.fetchBattery env.battery env.now_bat env.bat_token_ok
            vin ODO_METER_DATA hOB
          rw [hcallb] at hh
          exact hh.trans hc3
        have hbmem : Action.fetchBattery ∈ a4 := by
          have hh := call_api_mem_acts s3 vin BATTERY_DATA
            Action.fetchBattery env.battery env.now_bat env.bat_token_ok
          rw [hcallb] at hh
          exact hh
        cases r4 with
        | error e =>
            rw [get_ev_data_run_bat_err s env vin hu hth hap () s3 a3 e s4 a4
              hcallo hcallb]
            dsimp only
            exact ⟨hc4, fun _ => by simp [hbmem]⟩
        | ok u4 =>
            cases u4
            rw [get_ev_data_run_done s env vin hu hth hap () () s3 s4 a3 a4
              hcallo hcallb]
            dsimp only
            exact ⟨hc4, fun _ => by simp [hbmem]⟩
  · intro errs hbq
    have hc3 : cacheLookup s3 vin BATTERY_DATA =
        cacheLookup s vin BATTERY_DATA := by
      have hh := call_api_cacheLookup_ne { s with updating := true } vin
        ODO_METER_DATA Action.fetchOdometer env.odometer env.now_odo
        env.odo_token_ok vin BATTERY_DATA hBO
      rw [hcallo] at hh
      exact hh
    cases r3 with
    | error e =>
        rw [get_ev_data_run_odo_err s env vin hu hth hap e s3 a3 hcallo]
        dsimp only
        exact hc3
    | ok u3 =>
        cases u3
        rcases hcallb : call_api s3 vin BATTERY_DATA Action.fetchBattery
            env.battery env.now_bat env.bat_token_ok with ⟨r4, s4, a4⟩
        have hc4 : cacheLookup s4 vin BATTERY_DATA =
            cacheLookup s vin BATTERY_DATA := by
          have hh := call_api_cache_of_fail s3 vin BATTERY_DATA
            Action.fetchBattery env.battery env.now_bat env.bat_token_ok
            (by rw [hbq]; intro r hr; exact TransportOutcome.noConfusion hr)
          rw [hcallb] at hh
          exact (cacheLookup_congr hh vin BATTERY_DATA).trans hc3
        cases r4 with
        | error e =>
            rw [get_ev_data_run_bat_err s env vin hu hth hap () s3 a3 e s4 a4
              hcallo hcallb]
            dsimp only
            exact hc4
        | ok u4 =>
            cases u4
            rw [get_ev_data_run_done s env vin hu hth hap () () s3 s4 a3 a4
              hcallo hcallb]
            dsimp only
            exact hc4

/-- Witness for the amended C4: a concrete cycle whose odometer fetch fails
with a plain server error leaves the odometer entry as it was and still
attempts the battery fetch. -/
theorem c4_witness :
    cacheLookup
      (get_ev_data
          ⟨false, none, none, none, [],
            [("V1", [(ODO_METER_DATA, ⟨Json.num 42, 1⟩)])], 300, 5, none⟩
          ⟨0, some 1000, 0, true,
            .queryError [⟨"SERVER_ERROR", "boom"⟩], 0, true,
            .success (Json.obj [(BATTERY_DATA, Json.null)]), 0, true,
            0⟩ "V1").2.1
      "V1" ODO_METER_DATA = some ⟨Json.num 42, 1⟩ ∧
    Action.fetchBattery ∈
      (get_ev_data
          ⟨false, none, none, none, [],
            [("V1", [(ODO_METER_DATA, ⟨Json.num 42, 1⟩)])], 300, 5, none⟩
          ⟨0, some 1000, 0, true,
            .queryError [⟨"SERVER_ERROR", "boom"⟩], 0, true,
            .success (Json.obj [(BATTERY_DATA, Json.null)]), 0, true,
            0⟩ "V1").2.2 := by
  have h := (c4_amended
    ⟨false, none, none, none, [],
      [("V1", [(ODO_METER_DATA, ⟨Json.num 42, 1⟩)])], 300, 5, none⟩
    ⟨0, some 1000, 0, true,
      .queryError [⟨"SERVER_ERROR", "boom"⟩], 0, true,
      .success (Json.obj [(BATTERY_DATA, Json.null)]), 0, true, 0⟩
    "V1" rfl rfl rfl).1 [⟨"SERVER_ERROR", "boom"⟩] rfl
  refine ⟨?_, h.2 (Or.inl rfl)⟩
  rw [h.1]
  rfl

end Polestar
